import Mathlib

set_option maxRecDepth 4000

/-!
Shallow embedding of the items service: the GET /api/items query engine
(validation, search filter, pagination), the GET /api/items/:id lookup,
the POST /api/items creation handler, and the /api/stats aggregation
worker, translated from the JavaScript sources of the repository.
-/

/-- Numeric value of a list of decimal digit characters, most significant first. -/
def digitsVal (ds : List Char) : Nat :=
  ds.foldl (fun a c => a * 10 + (c.toNat - 48)) 0

/-- Model of JavaScript parseInt(s, 10): skip leading whitespace, read an
optional sign, then the longest prefix of decimal digits; if there are no
digits the result is NaN, modelled as none. -/
def jsParseInt (s : String) : Option Int :=
  let cs := s.data.dropWhile Char.isWhitespace
  match cs with
  | '-' :: rest =>
    let ds := rest.takeWhile Char.isDigit
    if ds.isEmpty then none else some (-(digitsVal ds : Int))
  | '+' :: rest =>
    let ds := rest.takeWhile Char.isDigit
    if ds.isEmpty then none else some ((digitsVal ds : Int))
  | rest =>
    let ds := rest.takeWhile Char.isDigit
    if ds.isEmpty then none else some ((digitsVal ds : Int))

/-- Does the first list occur at the head of the second list? -/
def leadMatch : List Char → List Char → Bool
  | [], _ => true
  | _ :: _, [] => false
  | a :: as, b :: bs => a == b && leadMatch as bs

/-- Does the first list occur contiguously anywhere in the second list? -/
def subMatch (needle : List Char) : List Char → Bool
  | [] => needle.isEmpty
  | c :: rest => leadMatch needle (c :: rest) || subMatch needle rest

/-- Model of JavaScript String.prototype.includes: substring containment. -/
def jsIncludes (hay needle : String) : Bool :=
  subMatch needle.data hay.data

/-- Model of JavaScript String.prototype.toLowerCase, character by character. -/
def jsToLower (s : String) : String :=
  String.mk (s.data.map Char.toLower)

/-- Model of JavaScript String.prototype.trim: strip whitespace at both ends. -/
def jsTrim (s : String) : String :=
  String.mk (((s.data.dropWhile Char.isWhitespace).reverse.dropWhile Char.isWhitespace).reverse)

/-- A stored record as the query engine sees it. -/
structure Item where
  id : Int
  name : String
  price : ℚ
  description : String
deriving DecidableEq, Repr

/-- An error carrying the HTTP status the route attaches and its message. -/
structure Err where
  status : Nat
  message : String
deriving DecidableEq, Repr

/-- The JSON body sent by the GET /api/items handler. -/
structure ItemsResponse where
  items : List Item
  currentPage : Nat
  itemsPerPage : Nat
  totalItems : Nat
  totalPages : Nat
  hasPreviousPage : Bool
  hasNextPage : Bool
deriving DecidableEq, Repr

def invalidParamMsg : String :=
  "Invalid page or limit parameters. Must be positive numbers."

/-- Validation of one raw page/limit query parameter, as in the handler:
an absent parameter takes the default; a present parameter is parsed with
parseInt(-, 10) and rejected when NaN or below 1. -/
def parseParam (raw : Option String) (dft : Nat) : Except Err Nat :=
  match raw with
  | none => Except.ok dft
  | some s =>
    match jsParseInt s with
    | none => Except.error { status := 400, message := invalidParamMsg }
    | some n =>
      if n < 1 then Except.error { status := 400, message := invalidParamMsg }
      else Except.ok n.toNat

/-- A supplied parameter string the validation rejects: parseInt gives NaN
or a value below 1. -/
def badParam (s : String) : Bool :=
  match jsParseInt s with
  | none => true
  | some n => decide (n < 1)

/-- The search filter of the handler: when q is truthy (present and
non-empty), keep the items whose lowercased name contains the lowercased
query as a substring. -/
def applyQueryFilter (q : Option String) (items : List Item) : List Item :=
  match q with
  | none => items
  | some s =>
    if s == "" then items
    else items.filter (fun item => jsIncludes (jsToLower item.name) (jsToLower s))

/-- Ceiling division on naturals, the value of Math.ceil(a / b) for b > 0. -/
def ceilDiv (a b : Nat) : Nat :=
  (a + b - 1) / b

/-- The pagination block of the GET /api/items handler, applied to the
filtered items and the validated page and limit numbers. Mirrors the three
branches of the source: empty filtered set, requested page beyond the last
page, and the normal slice. -/
def paginate (filteredItems : List Item) (pageNum limitNum : Nat) : ItemsResponse :=
  let totalItems := filteredItems.length
  let totalPages := (totalItems + limitNum - 1) / limitNum
  if totalItems = 0 then
    { items := [], currentPage := 1, itemsPerPage := limitNum, totalItems := totalItems,
      totalPages := 0, hasPreviousPage := decide ((1 : Nat) > 1),
      hasNextPage := decide ((1 : Nat) < 0) }
  else if totalPages < pageNum then
    { items := [], currentPage := pageNum, itemsPerPage := limitNum, totalItems := totalItems,
      totalPages := totalPages, hasPreviousPage := decide (pageNum > 1),
      hasNextPage := decide (pageNum < totalPages) }
  else
    let startIndex := (pageNum - 1) * limitNum
    { items := (filteredItems.drop startIndex).take limitNum, currentPage := pageNum,
      itemsPerPage := limitNum, totalItems := totalItems, totalPages := totalPages,
      hasPreviousPage := decide (pageNum > 1), hasNextPage := decide (pageNum < totalPages) }

/-- Outcome of one run of the GET /api/items handler: the response or error,
together with whether readData was reached on that path. -/
structure HandlerOutcome where
  result : Except Err ItemsResponse
  storeRead : Bool
deriving Repr

/-- The GET /api/items handler: validate page, validate limit, only then
read the store, filter by q, and paginate. -/
def getItems (rawPage rawLimit q : Option String) (store : List Item) : HandlerOutcome :=
  match parseParam rawPage 1 with
  | Except.error e => { result := Except.error e, storeRead := false }
  | Except.ok pageNum =>
    match parseParam rawLimit 2 with
    | Except.error e => { result := Except.error e, storeRead := false }
    | Except.ok limitNum =>
      let allItems := store
      let filteredItems := applyQueryFilter q allItems
      { result := Except.ok (paginate filteredItems pageNum limitNum), storeRead := true }

/-- The GET /api/items/:id handler: parse the id parameter with
parseInt(-, 10), scan the loaded set for the first exact id match, and fail
with a 404 when there is none. A NaN id (strict equality with NaN is always
false in JavaScript) matches nothing. -/
def getItemById (idParam : String) (store : List Item) : Except Err Item :=
  let itemId := jsParseInt idParam
  match store.find? (fun i => match itemId with
    | some n => i.id == n
    | none => false) with
  | some item => Except.ok item
  | none => Except.error { status := 404, message := "Item not found" }

/-- The result posted back by the stats worker. -/
structure Stats where
  total : Nat
  averagePrice : ℚ
deriving DecidableEq, Repr

/-- The computation the worker performs on the message it receives: count
of the records and, for a non-empty set, the left-fold sum of prices
divided by the count, else zero. -/
def computeStats (items : List Item) : Stats :=
  let total := items.length
  let sumPrices := items.foldl (fun acc cur => acc + cur.price) 0
  { total := total
    averagePrice := if total > 0 then sumPrices / (total : ℚ) else 0 }

/-- The three-record store of the specification scenarios. -/
def sampleStore : List Item :=
  [ { id := 1, name := "Laptop", price := 1200, description := "A laptop" },
    { id := 2, name := "Mouse", price := 25, description := "A mouse" },
    { id := 3, name := "Keyboard", price := 50, description := "A keyboard" } ]

/-- Events the stats route can receive from its worker thread. -/
inductive WorkerEvent where
  | message (stats : Stats)
  | error (msg : String)
  | exit (code : Nat)
deriving DecidableEq, Repr

/-- Observable steps taken by the stats route and its event handlers. -/
inductive RouteAction where
  | spawnWorker
  | postMessage
  | respondJson (stats : Stats)
  | terminateWorker
  | logConsoleError (text : String)
  | nextError (msg : String)
deriving DecidableEq, Repr

/-- The event handlers the stats route registers on its worker: a result
message is forwarded as the response and the worker terminated; a worker
error is logged, the worker terminated, and the error passed to next; a
non-zero exit is only logged and a zero exit does nothing. -/
def handleWorkerEvent : WorkerEvent → List RouteAction
  | WorkerEvent.message stats => [RouteAction.respondJson stats, RouteAction.terminateWorker]
  | WorkerEvent.error msg =>
    [RouteAction.logConsoleError (("Worker thread error: ") ++ msg),
     RouteAction.terminateWorker, RouteAction.nextError msg]
  | WorkerEvent.exit code =>
    if code ≠ 0 then
      [RouteAction.logConsoleError (("Worker stopped with exit code ") ++ toString code)]
    else []

/-- One run of the GET /api/stats route, as the sequence of its observable
actions: spawn the worker, post the data to it, then process the worker
events in arrival order through the registered handlers. -/
def statsRoute (events : List WorkerEvent) : List RouteAction :=
  RouteAction.spawnWorker :: RouteAction.postMessage ::
    events.flatMap handleWorkerEvent

/-- Actions that send something to the caller: a success response or a
failure handed to the error middleware. -/
def isResponseAction : RouteAction → Bool
  | RouteAction.respondJson _ => true
  | RouteAction.nextError _ => true
  | _ => false

/-- The response, if any, that one worker event elicits from the handlers. -/
def eventResponse : WorkerEvent → Option RouteAction
  | WorkerEvent.message stats => some (RouteAction.respondJson stats)
  | WorkerEvent.error msg => some (RouteAction.nextError msg)
  | WorkerEvent.exit _ => none

/-- A JavaScript number: a finite value, NaN, or one of the two infinities. -/
inductive JsNumber where
  | finite (val : ℚ)
  | nan
  | posInf
  | negInf
deriving DecidableEq, Repr

/-- An atomic JavaScript value, as found in a parsed JSON request body. -/
inductive JsValue where
  | str (s : String)
  | num (n : JsNumber)
  | boolean (b : Bool)
  | null
deriving DecidableEq, Repr

/-- A JavaScript object as an ordered list of key value fields. -/
abbrev JsObject := List (String × JsValue)

/-- Property read: the value at the first matching key, none for undefined. -/
def getField : JsObject → String → Option JsValue
  | [], _ => none
  | p :: rest, k => if p.1 == k then some p.2 else getField rest k

/-- Property assignment: replace the value at an existing key in place, or
append the field when the key is absent. -/
def setField : JsObject → String → JsValue → JsObject
  | [], k, v => [(k, v)]
  | p :: rest, k, v => if p.1 == k then (k, v) :: rest else p :: setField rest k v

def jsIsNaN : JsNumber → Bool
  | JsNumber.nan => true
  | _ => false

/-- The JavaScript comparison n <= 0: false for NaN and positive infinity. -/
def jsLeZero : JsNumber → Bool
  | JsNumber.finite q => decide (q ≤ 0)
  | JsNumber.nan => false
  | JsNumber.posInf => false
  | JsNumber.negInf => true

/-- The check the POST handler applies to name and description: invalid
when the value is falsy, not a string, or trims to the empty string. -/
def strFieldInvalid : Option JsValue → Bool
  | some (JsValue.str s) => s == "" || jsTrim s == ""
  | _ => true

/-- The check the POST handler applies to price: invalid when undefined,
not a number, NaN, or <= 0. -/
def priceFieldInvalid : Option JsValue → Bool
  | none => true
  | some (JsValue.num n) => jsIsNaN n || jsLeZero n
  | some _ => true

/-- The POST /api/items handler on a parsed body: validate name, price and
description in that order; on success set the id field of the body object
to the current timestamp, append it to the loaded data, persist, and return
the created record together with the persisted set. -/
def createItem (body : JsObject) (data : List JsObject) (now : Int) :
    Except Err (JsObject × List JsObject) :=
  if strFieldInvalid (getField body ("name")) then
    Except.error { status := 400, message := "Item name is required and must be a non-empty string." }
  else if priceFieldInvalid (getField body ("price")) then
    Except.error { status := 400, message := "Item price is required and must be a positive number." }
  else if strFieldInvalid (getField body ("description")) then
    Except.error { status := 400, message := "Item category is required and must be a non-empty string." }
  else
    let item := setField body ("id") (JsValue.num (JsNumber.finite (now : ℚ)))
    Except.ok (item, data ++ [item])

/-- Stated in the words of the claim: the name field holds a non-empty
trimmed string. -/
def specNameOk (body : JsObject) : Bool :=
  match getField body ("name") with
  | some (JsValue.str s) => !(jsTrim s == "")
  | _ => false

/-- The JavaScript comparison n > 0: true for positive finite values and
for positive infinity. -/
def jsGtZero : JsNumber → Bool
  | JsNumber.finite q => decide (0 < q)
  | JsNumber.nan => false
  | JsNumber.posInf => true
  | JsNumber.negInf => false

/-- Stated in the words of the amended claim: the price field holds a
number that is not NaN and compares greater than zero. -/
def specPriceOk (body : JsObject) : Bool :=
  match getField body ("price") with
  | some (JsValue.num n) => !(jsIsNaN n) && jsGtZero n
  | _ => false

/-- Stated in the words of the claim: the description field holds a
non-empty trimmed string. -/
def specDescOk (body : JsObject) : Bool :=
  match getField body ("description") with
  | some (JsValue.str s) => !(jsTrim s == "")
  | _ => false

/-- Stated in the words of the claim for the page and limit parameters: the
string is a base-10 integer greater than or equal to 1, that is, a
non-empty run of decimal digits whose value is at least 1. -/
def isBase10IntegerGe1 (s : String) : Bool :=
  !(s.data.isEmpty) && s.data.all Char.isDigit && decide (1 ≤ digitsVal s.data)

/-- A creation payload whose price is positive infinity, which JSON.parse
produces for out-of-range literals such as 1e999. -/
def infBody : JsObject :=
  [(("name"), JsValue.str ("Gadget")),
   (("price"), JsValue.num JsNumber.posInf),
   (("description"), JsValue.str ("A gadget"))]

/-- A well-formed creation payload. -/
def plainBody : JsObject :=
  [(("name"), JsValue.str ("New")),
   (("price"), JsValue.num (JsNumber.finite 3)),
   (("description"), JsValue.str ("A new item"))]

/-- A stored record whose id already equals the timestamp 7 that the next
creation will use. -/
def takenIdRecord : JsObject :=
  [(("id"), JsValue.num (JsNumber.finite ((7 : Int) : ℚ))),
   (("name"), JsValue.str ("Old")),
   (("price"), JsValue.num (JsNumber.finite 1)),
   (("description"), JsValue.str ("An old item"))]

/-! ## Supporting lemmas -/

theorem parseParam_pos {raw : Option String} {dft v : Nat} (hd : 1 ≤ dft)
    (h : parseParam raw dft = Except.ok v) : 1 ≤ v := by
  cases raw with
  | none =>
    simp [parseParam] at h
    omega
  | some s =>
    cases hp : jsParseInt s with
    | none => simp [parseParam, hp] at h
    | some n =>
      by_cases hn : n < 1
      · simp [parseParam, hp, hn] at h
      · simp [parseParam, hp, hn] at h
        omega

theorem parseParam_error_eq {raw : Option String} {dft : Nat} {e : Err}
    (h : parseParam raw dft = Except.error e) :
    e = { status := 400, message := invalidParamMsg } := by
  cases raw with
  | none => simp [parseParam] at h
  | some s =>
    cases hp : jsParseInt s with
    | none =>
      simp [parseParam, hp] at h
      exact h.symm
    | some n =>
      by_cases hn : n < 1
      · simp [parseParam, hp, hn] at h
        exact h.symm
      · simp [parseParam, hp, hn] at h

theorem parseParam_bad {s : String} (h : badParam s = true) (dft : Nat) :
    parseParam (some s) dft = Except.error { status := 400, message := invalidParamMsg } := by
  unfold badParam at h
  cases hp : jsParseInt s with
  | none => simp [parseParam, hp]
  | some n =>
    rw [hp] at h
    simp at h
    simp [parseParam, hp, h]

theorem paginate_totalItems (l : List Item) (p k : Nat) :
    (paginate l p k).totalItems = l.length := by
  simp only [paginate]
  split
  · rfl
  · split <;> rfl

theorem paginate_totalPages (l : List Item) (p k : Nat) (hk : 1 ≤ k) :
    (paginate l p k).totalPages = ceilDiv l.length k := by
  unfold paginate ceilDiv
  by_cases h0 : l.length = 0
  · rw [h0]
    simp [Nat.div_eq_of_lt (show k - 1 < k by omega)]
  · simp only [h0, if_false]
    split <;> rfl

/-! ## Claim theorems -/

/-- C1: for valid page and limit, an empty filtered set forces
currentPage 1, totalPages 0 and empty items whatever page was requested,
while a non-empty filtered set with a requested page beyond totalPages
yields empty items and reports the requested page unclamped. -/
theorem c1_empty_and_out_of_bounds_pages (filtered : List Item) (pageNum limitNum : Nat)
    (hp : 1 ≤ pageNum) (hl : 1 ≤ limitNum) :
    (filtered.length = 0 →
      (paginate filtered pageNum limitNum).currentPage = 1 ∧
      (paginate filtered pageNum limitNum).totalPages = 0 ∧
      (paginate filtered pageNum limitNum).items = []) ∧
    (filtered.length ≠ 0 → ceilDiv filtered.length limitNum < pageNum →
      (paginate filtered pageNum limitNum).items = [] ∧
      (paginate filtered pageNum limitNum).currentPage = pageNum) := by
  constructor
  · intro h
    simp [paginate, h]
  · intro h h2
    rw [ceilDiv] at h2
    simp [paginate, h, h2]

theorem c1_witness :
    (((paginate [] 7 2).currentPage = 1 ∧ (paginate [] 7 2).totalPages = 0 ∧
        (paginate [] 7 2).items = []) ∧
      ((paginate sampleStore 100 2).items = [] ∧
        (paginate sampleStore 100 2).currentPage = 100)) := by
  constructor
  · exact (c1_empty_and_out_of_bounds_pages [] 7 2 (by decide) (by decide)).1 (by decide)
  · exact (c1_empty_and_out_of_bounds_pages sampleStore 100 2 (by decide) (by decide)).2
      (by decide) (by decide)

/-- C2: for valid page and limit and a non-empty filtered set, totalPages
is the ceiling of totalItems over limit, the navigation flags are computed
from the reported currentPage (the requested page) against the true
totalPages, and an in-range page returns the slice starting at
(page - 1) * limit of length min limit (totalItems - (page - 1) * limit). -/
theorem c2_pagination_window_and_flags (filtered : List Item) (pageNum limitNum : Nat)
    (hp : 1 ≤ pageNum) (hl : 1 ≤ limitNum) (hne : filtered ≠ []) :
    (paginate filtered pageNum limitNum).totalPages = ceilDiv filtered.length limitNum ∧
    (paginate filtered pageNum limitNum).currentPage = pageNum ∧
    (paginate filtered pageNum limitNum).hasPreviousPage = decide (pageNum > 1) ∧
    (paginate filtered pageNum limitNum).hasNextPage
      = decide (pageNum < ceilDiv filtered.length limitNum) ∧
    (pageNum ≤ ceilDiv filtered.length limitNum →
      (paginate filtered pageNum limitNum).items
        = (filtered.drop ((pageNum - 1) * limitNum)).take limitNum ∧
      (paginate filtered pageNum limitNum).items.length
        = min limitNum (filtered.length - (pageNum - 1) * limitNum)) := by
  have h0 : filtered.length ≠ 0 := by
    simpa [List.length_eq_zero] using hne
  by_cases hob : (filtered.length + limitNum - 1) / limitNum < pageNum
  · refine ⟨?_, ?_, ?_, ?_, ?_⟩ <;>
      first
        | simp [paginate, ceilDiv, h0, hob]
        | (intro hle; rw [ceilDiv] at hle; omega)
  · refine ⟨?_, ?_, ?_, ?_, ?_⟩ <;>
      first
        | simp [paginate, ceilDiv, h0, hob]
        | (intro hle
           constructor
           · simp [paginate, h0, hob]
           · simp [paginate, h0, hob, List.length_take, List.length_drop])

theorem c2_witness :
    ((paginate sampleStore 2 2).totalPages = ceilDiv sampleStore.length 2 ∧
      (paginate sampleStore 2 2).currentPage = 2 ∧
      (paginate sampleStore 2 2).hasPreviousPage = decide ((2 : Nat) > 1) ∧
      (paginate sampleStore 2 2).hasNextPage = decide (2 < ceilDiv sampleStore.length 2) ∧
      (paginate sampleStore 2 2).items = (sampleStore.drop ((2 - 1) * 2)).take 2 ∧
      (paginate sampleStore 2 2).items.length
        = min 2 (sampleStore.length - (2 - 1) * 2)) := by
  have h := c2_pagination_window_and_flags sampleStore 2 2 (by decide) (by decide) (by decide)
  have h5 := h.2.2.2.2 (by decide)
  exact ⟨h.1, h.2.1, h.2.2.1, h.2.2.2.1, h5.1, h5.2⟩

/-- C3 counterexample: the page parameter 2abc is not a base-10 integer at
all, yet the query does not fail with a ValidationError: parseInt reads the
leading digit prefix, the request succeeds with currentPage 2 and returns
the second page of the sample store. -/
theorem c3_counterexample :
    isBase10IntegerGe1 ("2abc") = false ∧
    (getItems (some ("2abc")) none none sampleStore).result
      = Except.ok { items := [{ id := 3, name := "Keyboard", price := 50, description := "A keyboard" }],
                    currentPage := 2, itemsPerPage := 2, totalItems := 3, totalPages := 2,
                    hasPreviousPage := true, hasNextPage := false } := by
  constructor
  · rfl
  · rfl

/-- C3 amended: if the page parameter is supplied and parseInt(page, 10)
yields NaN or a value below 1, the query fails with the fixed
ValidationError message; the same rule and message apply to limit; absent
page and limit default to 1 and 2 and the query succeeds. -/
theorem c3_param_validation (rawPage rawLimit q : Option String) (store : List Item) :
    (∀ s, rawPage = some s → badParam s = true →
      (getItems rawPage rawLimit q store).result
        = Except.error { status := 400, message := invalidParamMsg }) ∧
    (∀ s, rawLimit = some s → badParam s = true →
      (getItems rawPage rawLimit q store).result
        = Except.error { status := 400, message := invalidParamMsg }) ∧
    (rawPage = none → rawLimit = none →
      (getItems rawPage rawLimit q store).result
        = Except.ok (paginate (applyQueryFilter q store) 1 2)) := by
  refine ⟨?_, ?_, ?_⟩
  · rintro s rfl hbad
    simp [getItems, parseParam_bad hbad]
  · rintro s rfl hbad
    cases hpp : parseParam rawPage 1 with
    | error e =>
      simp [getItems, hpp, parseParam_error_eq hpp]
    | ok p =>
      simp [getItems, hpp, parseParam_bad hbad]
  · rintro rfl rfl
    rfl

theorem c3_witness :
    ((getItems (some ("0")) none none sampleStore).result
        = Except.error { status := 400, message := invalidParamMsg } ∧
      (getItems none (some ("abc")) none sampleStore).result
        = Except.error { status := 400, message := invalidParamMsg } ∧
      (getItems none none none sampleStore).result
        = Except.ok (paginate (applyQueryFilter none sampleStore) 1 2)) := by
  refine ⟨?_, ?_, ?_⟩
  · exact (c3_param_validation (some ("0")) none none sampleStore).1 ("0") rfl (by decide)
  · exact (c3_param_validation none (some ("abc")) none sampleStore).2.1 ("abc") rfl (by decide)
  · exact (c3_param_validation none none none sampleStore).2.2 rfl rfl

/-- C4: whenever the page or limit parameter fails validation, the handler
reports the 400 validation failure and the record store is never read on
that path. -/
theorem c4_validation_precedes_read (rawPage rawLimit q : Option String) (store : List Item)
    (h : (∃ s, rawPage = some s ∧ badParam s = true) ∨
         (∃ s, rawLimit = some s ∧ badParam s = true)) :
    (getItems rawPage rawLimit q store).storeRead = false ∧
    (getItems rawPage rawLimit q store).result
      = Except.error { status := 400, message := invalidParamMsg } := by
  rcases h with ⟨s, hs, hbad⟩ | ⟨s, hs, hbad⟩
  · subst hs
    simp [getItems, parseParam_bad hbad]
  · subst hs
    cases hpp : parseParam rawPage 1 with
    | error e =>
      simp [getItems, hpp, parseParam_error_eq hpp]
    | ok p =>
      simp [getItems, hpp, parseParam_bad hbad]

theorem c4_witness :
    ((getItems (some ("abc")) none none sampleStore).storeRead = false ∧
      (getItems (some ("abc")) none none sampleStore).result
        = Except.error { status := 400, message := invalidParamMsg }) := by
  exact c4_validation_precedes_read (some ("abc")) none none sampleStore
    (Or.inl ⟨("abc"), rfl, by decide⟩)

/-- C5: with a non-empty q, the handler paginates exactly the records whose
lowercased name contains the lowercased query as a substring, membership in
the kept set depends on the name field alone, and totalItems and totalPages
are computed from the filtered set. -/
theorem c5_case_insensitive_name_filter (store : List Item) (s : String)
    (rawPage rawLimit : Option String) (pageNum limitNum : Nat) (hs : s ≠ "")
    (hpage : parseParam rawPage 1 = Except.ok pageNum)
    (hlimit : parseParam rawLimit 2 = Except.ok limitNum) :
    (getItems rawPage rawLimit (some s) store).result
      = Except.ok (paginate (store.filter
          (fun item => jsIncludes (jsToLower item.name) (jsToLower s))) pageNum limitNum) ∧
    (∀ item, item ∈ store.filter (fun item => jsIncludes (jsToLower item.name) (jsToLower s))
        ↔ item ∈ store ∧ jsIncludes (jsToLower item.name) (jsToLower s) = true) ∧
    (paginate (store.filter (fun item => jsIncludes (jsToLower item.name) (jsToLower s)))
        pageNum limitNum).totalItems
      = (store.filter (fun item => jsIncludes (jsToLower item.name) (jsToLower s))).length ∧
    (paginate (store.filter (fun item => jsIncludes (jsToLower item.name) (jsToLower s)))
        pageNum limitNum).totalPages
      = ceilDiv (store.filter
          (fun item => jsIncludes (jsToLower item.name) (jsToLower s))).length limitNum := by
  refine ⟨?_, ?_, ?_, ?_⟩
  · simp [getItems, hpage, hlimit, applyQueryFilter, hs]
  · intro item
    exact List.mem_filter
  · exact paginate_totalItems ..
  · exact paginate_totalPages _ _ _ (parseParam_pos (by decide) hlimit)

theorem c5_witness :
    ((getItems none none (some ("MOUSE")) sampleStore).result
      = Except.ok (paginate (sampleStore.filter
          (fun item => jsIncludes (jsToLower item.name) (jsToLower ("MOUSE")))) 1 2) ∧
    (∀ item, item ∈ sampleStore.filter
          (fun item => jsIncludes (jsToLower item.name) (jsToLower ("MOUSE")))
        ↔ item ∈ sampleStore
          ∧ jsIncludes (jsToLower item.name) (jsToLower ("MOUSE")) = true) ∧
    (paginate (sampleStore.filter
        (fun item => jsIncludes (jsToLower item.name) (jsToLower ("MOUSE")))) 1 2).totalItems
      = (sampleStore.filter
          (fun item => jsIncludes (jsToLower item.name) (jsToLower ("MOUSE")))).length ∧
    (paginate (sampleStore.filter
        (fun item => jsIncludes (jsToLower item.name) (jsToLower ("MOUSE")))) 1 2).totalPages
      = ceilDiv (sampleStore.filter
          (fun item => jsIncludes (jsToLower item.name) (jsToLower ("MOUSE")))).length 2) := by
  exact c5_case_insensitive_name_filter sampleStore ("MOUSE") none none 1 2
    (by decide) rfl rfl


theorem foldl_price_sum (l : List Item) (a : ℚ) :
    l.foldl (fun acc cur => acc + cur.price) a = a + (l.map Item.price).sum := by
  induction l generalizing a with
  | nil => simp
  | cons x t ih => simp [ih, add_assoc]

/-- C6: the aggregation returns the record count as total, the sum of
prices over the count as averagePrice for a non-empty set, zero for the
empty set, and the value 425 on the three-record sample store. -/
theorem c6_stats_count_and_mean (records : List Item) :
    (computeStats records).total = records.length ∧
    (records ≠ [] → (computeStats records).averagePrice
        = (records.map Item.price).sum / (records.length : ℚ)) ∧
    (records = [] → (computeStats records).averagePrice = 0) ∧
    computeStats sampleStore = { total := 3, averagePrice := 425 } := by
  refine ⟨rfl, ?_, ?_, ?_⟩
  · intro h
    have hpos : 0 < records.length := List.length_pos.mpr h
    simp [computeStats, hpos, foldl_price_sum]
  · rintro rfl
    rfl
  · norm_num [computeStats, sampleStore]

theorem c6_witness :
    (computeStats sampleStore).averagePrice
      = (sampleStore.map Item.price).sum / ((sampleStore.length : ℚ)) :=
  (c6_stats_count_and_mean sampleStore).2.1 (by decide)

theorem getItemById_eq (idParam : String) (store : List Item) :
    getItemById idParam store
      = match store.find? (fun i => match jsParseInt idParam with
          | some n => i.id == n
          | none => false) with
        | some item => Except.ok item
        | none => Except.error { status := 404, message := "Item not found" } := rfl

/-- C8: a successful lookup returns a member of the store whose id equals
the parsed id parameter exactly; whenever the linear scan finds a first
record with the parsed id, exactly that record is returned; whenever any
record in the store carries the parsed id the lookup succeeds with a
matching record; and when no record has that id, including on the empty
store, the handler fails with the 404 Item not found error. -/
theorem c8_get_by_id_lookup (idParam : String) (store : List Item) :
    (∀ r, getItemById idParam store = Except.ok r →
        r ∈ store ∧ jsParseInt idParam = some r.id) ∧
    (∀ n, jsParseInt idParam = some n →
      ∀ r, store.find? (fun i => i.id == n) = some r →
        getItemById idParam store = Except.ok r) ∧
    (∀ r ∈ store, jsParseInt idParam = some r.id →
      ∃ r2, getItemById idParam store = Except.ok r2 ∧ r2 ∈ store ∧ r2.id = r.id) ∧
    ((∀ r ∈ store, jsParseInt idParam ≠ some r.id) →
      getItemById idParam store
        = Except.error { status := 404, message := "Item not found" }) ∧
    getItemById idParam []
      = Except.error { status := 404, message := "Item not found" } := by
  refine ⟨?_, ?_, ?_, ?_, ?_⟩
  · intro r hr
    rw [getItemById_eq] at hr
    cases hfind : store.find? (fun i => match jsParseInt idParam with
        | some n => i.id == n
        | none => false) with
    | none =>
      rw [hfind] at hr
      exact absurd hr (by simp)
    | some a =>
      rw [hfind] at hr
      have ha : a = r := by simpa using hr
      subst ha
      refine ⟨List.mem_of_find?_eq_some hfind, ?_⟩
      have hpred := List.find?_some hfind
      cases hj : jsParseInt idParam with
      | none =>
        rw [hj] at hpred
        simp at hpred
      | some n =>
        rw [hj] at hpred
        simp at hpred
        rw [hpred]
  · intro n hj r hfind
    have hfun : (fun i : Item => match jsParseInt idParam with
        | some m => i.id == m
        | none => false) = (fun i : Item => i.id == n) := by
      funext i
      rw [hj]
    rw [getItemById_eq, hfun, hfind]
  · intro r hr hj
    cases hfind : store.find? (fun i => match jsParseInt idParam with
        | some m => i.id == m
        | none => false) with
    | none =>
      exfalso
      have := List.find?_eq_none.mp hfind r hr
      rw [hj] at this
      simp at this
    | some a =>
      refine ⟨a, ?_, List.mem_of_find?_eq_some hfind, ?_⟩
      · rw [getItemById_eq, hfind]
      · have hpred := List.find?_some hfind
        rw [hj] at hpred
        simpa using hpred
  · intro h
    rw [getItemById_eq]
    have hnone : store.find? (fun i => match jsParseInt idParam with
        | some n => i.id == n
        | none => false) = none := by
      apply List.find?_eq_none.mpr
      intro x hx
      cases hj : jsParseInt idParam with
      | none => simp
      | some n =>
        simp only [Bool.not_eq_true, beq_eq_false_iff_ne]
        intro heq
        exact h x hx (by rw [hj, heq])
    rw [hnone]
  · rfl

theorem c8_witness :
    (getItemById ("2") sampleStore
        = Except.ok { id := 2, name := "Mouse", price := 25, description := "A mouse" } ∧
      getItemById ("99") sampleStore
        = Except.error { status := 404, message := "Item not found" }) := by
  constructor
  · exact (c8_get_by_id_lookup ("2") sampleStore).2.1 2 (by rfl)
      { id := 2, name := "Mouse", price := 25, description := "A mouse" } (by rfl)
  · exact (c8_get_by_id_lookup ("99") sampleStore).2.2.2.1 (by decide)

theorem handle_filter_responses (e : WorkerEvent) :
    (handleWorkerEvent e).filter isResponseAction = (eventResponse e).toList := by
  cases e with
  | message stats => rfl
  | error msg => rfl
  | exit code =>
    by_cases hc : code = 0 <;> simp [handleWorkerEvent, hc, isResponseAction, eventResponse]

theorem handle_no_spawn (e : WorkerEvent) :
    (handleWorkerEvent e).countP (fun a => a == RouteAction.spawnWorker) = 0 := by
  cases e with
  | message stats => rfl
  | error msg => rfl
  | exit code =>
    by_cases hc : code = 0 <;> simp [handleWorkerEvent, hc]

theorem flatMap_filter_responses (events : List WorkerEvent) :
    (events.flatMap handleWorkerEvent).filter isResponseAction
      = events.filterMap eventResponse := by
  induction events with
  | nil => rfl
  | cons e rest ih =>
    rw [List.flatMap_cons, List.filter_append, handle_filter_responses, ih,
      List.filterMap_cons]
    cases eventResponse e <;> simp

theorem flatMap_no_spawn (events : List WorkerEvent) :
    (events.flatMap handleWorkerEvent).countP (fun a => a == RouteAction.spawnWorker) = 0 := by
  induction events with
  | nil => rfl
  | cons e rest ih =>
    rw [List.flatMap_cons, List.countP_append, handle_no_spawn, ih]

/-- C9: over any sequence of worker events, the responses sent to the
caller are exactly one success per result message and one propagated
failure per worker error, in arrival order; an exit event, normal or
abnormal, contributes no response at all, so an abnormal exit after a
result or error never produces a second failure and the first failure or
success wins; the route spawns exactly one worker, so a failure is never
retried; a non-zero exit is logged. -/
theorem c9_worker_failure_policy (events : List WorkerEvent) :
    (statsRoute events).filter isResponseAction = events.filterMap eventResponse ∧
    (statsRoute events).countP (fun a => a == RouteAction.spawnWorker) = 1 ∧
    (∀ code, code ≠ 0 → handleWorkerEvent (WorkerEvent.exit code)
        = [RouteAction.logConsoleError (("Worker stopped with exit code ") ++ toString code)]) := by
  refine ⟨?_, ?_, ?_⟩
  · simp only [statsRoute, List.filter_cons, isResponseAction]
    simp [flatMap_filter_responses]
  · simp only [statsRoute, List.countP_cons, flatMap_no_spawn]
    decide
  · intro code hc
    simp [handleWorkerEvent, hc]

theorem c9_witness :
    handleWorkerEvent (WorkerEvent.exit 1)
      = [RouteAction.logConsoleError (("Worker stopped with exit code ") ++ toString 1)] :=
  (c9_worker_failure_policy []).2.2 1 (by decide)

theorem getField_setField_self (o : JsObject) (k : String) (v : JsValue) :
    getField (setField o k v) k = some v := by
  induction o with
  | nil => simp [setField, getField]
  | cons p rest ih =>
    by_cases hk : p.1 == k
    · simp [setField, hk, getField]
    · simp only [setField, hk, if_false, Bool.false_eq_true]
      simpa [getField, hk] using ih

theorem getField_setField_ne (o : JsObject) (k k2 : String) (v : JsValue)
    (h : k2 ≠ k) :
    getField (setField o k v) k2 = getField o k2 := by
  induction o with
  | nil =>
    have : (k == k2) = false := by
      simpa [beq_eq_false_iff_ne] using fun he => h he.symm
    simp [setField, getField, this]
  | cons p rest ih =>
    by_cases hk : p.1 == k
    · have hpk : p.1 = k := by simpa using hk
      have : (k == k2) = false := by
        simpa [beq_eq_false_iff_ne] using fun he => h he.symm
      simp [setField, hk, getField, this, hpk]
    · simp only [setField, hk, if_false, Bool.false_eq_true]
      by_cases hk2 : p.1 == k2
      · simp [getField, hk2]
      · simp [getField, hk2, ih]

/-- C10: when validation passes, the created and persisted record is the
request body object itself with only its id field set to the creation
timestamp: any client-supplied id is overwritten, every other field of the
payload, including fields beyond name, price and description, is persisted
and returned unchanged, and validity depends only on the name, price and
description fields, so extra fields are never validated. -/
theorem c10_create_preserves_body (body : JsObject) (data : List JsObject) (now : Int)
    (hn : strFieldInvalid (getField body ("name")) = false)
    (hpr : priceFieldInvalid (getField body ("price")) = false)
    (hd : strFieldInvalid (getField body ("description")) = false) :
    createItem body data now
      = Except.ok (setField body ("id") (JsValue.num (JsNumber.finite (now : ℚ))),
          data ++ [setField body ("id") (JsValue.num (JsNumber.finite (now : ℚ)))]) ∧
    getField (setField body ("id") (JsValue.num (JsNumber.finite (now : ℚ)))) ("id")
      = some (JsValue.num (JsNumber.finite (now : ℚ))) ∧
    (∀ k, k ≠ ("id") →
      getField (setField body ("id") (JsValue.num (JsNumber.finite (now : ℚ)))) k
        = getField body k) ∧
    (∀ body2 : JsObject,
      getField body2 ("name") = getField body ("name") →
      getField body2 ("price") = getField body ("price") →
      getField body2 ("description") = getField body ("description") →
      createItem body2 data now
        = Except.ok (setField body2 ("id") (JsValue.num (JsNumber.finite (now : ℚ))),
            data ++ [setField body2 ("id") (JsValue.num (JsNumber.finite (now : ℚ)))])) := by
  refine ⟨?_, ?_, ?_, ?_⟩
  · simp [createItem, hn, hpr, hd]
  · exact getField_setField_self ..
  · intro k hk
    exact getField_setField_ne body ("id") k _ hk
  · intro body2 h1 h2 h3
    simp [createItem, h1, h2, h3, hn, hpr, hd]

theorem c10_witness :
    (createItem [(("name"), JsValue.str ("N")),
        (("price"), JsValue.num (JsNumber.finite 3)),
        (("description"), JsValue.str ("D")),
        (("id"), JsValue.num (JsNumber.finite 999)),
        (("extra"), JsValue.boolean true)] [] 42
      = Except.ok (setField [(("name"), JsValue.str ("N")),
            (("price"), JsValue.num (JsNumber.finite 3)),
            (("description"), JsValue.str ("D")),
            (("id"), JsValue.num (JsNumber.finite 999)),
            (("extra"), JsValue.boolean true)] ("id")
            (JsValue.num (JsNumber.finite ((42 : Int) : ℚ))),
          [] ++ [setField [(("name"), JsValue.str ("N")),
            (("price"), JsValue.num (JsNumber.finite 3)),
            (("description"), JsValue.str ("D")),
            (("id"), JsValue.num (JsNumber.finite 999)),
            (("extra"), JsValue.boolean true)] ("id")
            (JsValue.num (JsNumber.finite ((42 : Int) : ℚ)))])) :=
  (c10_create_preserves_body _ [] 42 (by decide) (by decide) (by decide)).1

/-- C7 counterexample, both failing parts of the claim at concrete inputs.
First, a payload whose price is positive infinity, which is a number but
not a finite one, passes validation and is created rather than rejected
with a ValidationError. Second, the server-assigned id is not fresh or
unique: creating a valid payload at timestamp 7 over a store that already
holds a record with id 7 persists two records carrying the same id. -/
theorem c7_counterexample :
    (getField infBody ("price") = some (JsValue.num JsNumber.posInf) ∧
      createItem infBody [] 7
        = Except.ok (infBody ++ [(("id"), JsValue.num (JsNumber.finite ((7 : Int) : ℚ)))],
            [infBody ++ [(("id"), JsValue.num (JsNumber.finite ((7 : Int) : ℚ)))]])) ∧
    (createItem plainBody [takenIdRecord] 7
        = Except.ok (plainBody ++ [(("id"), JsValue.num (JsNumber.finite ((7 : Int) : ℚ)))],
            [takenIdRecord,
             plainBody ++ [(("id"), JsValue.num (JsNumber.finite ((7 : Int) : ℚ)))]]) ∧
      getField takenIdRecord ("id")
        = some (JsValue.num (JsNumber.finite ((7 : Int) : ℚ))) ∧
      getField (plainBody ++ [(("id"), JsValue.num (JsNumber.finite ((7 : Int) : ℚ)))]) ("id")
        = some (JsValue.num (JsNumber.finite ((7 : Int) : ℚ)))) := by
  refine ⟨⟨?_, ?_⟩, ?_, ?_, ?_⟩
  · rfl
  · rfl
  · rfl
  · rfl
  · rfl

theorem specNameOk_eq (body : JsObject) :
    specNameOk body = !(strFieldInvalid (getField body ("name"))) := by
  unfold specNameOk strFieldInvalid
  cases hv : getField body ("name") with
  | none => rfl
  | some v =>
    cases v with
    | str s =>
      by_cases h : s == ""
      · have hs : s = "" := by simpa using h
        subst hs
        rfl
      · have hf : (s == "") = false := by simpa using h
        simp [hf]
    | num n => rfl
    | boolean b => rfl
    | null => rfl

theorem specDescOk_eq (body : JsObject) :
    specDescOk body = !(strFieldInvalid (getField body ("description"))) := by
  unfold specDescOk strFieldInvalid
  cases hv : getField body ("description") with
  | none => rfl
  | some v =>
    cases v with
    | str s =>
      by_cases h : s == ""
      · have hs : s = "" := by simpa using h
        subst hs
        rfl
      · have hf : (s == "") = false := by simpa using h
        simp [hf]
    | num n => rfl
    | boolean b => rfl
    | null => rfl

theorem specPriceOk_eq (body : JsObject) :
    specPriceOk body = !(priceFieldInvalid (getField body ("price"))) := by
  unfold specPriceOk priceFieldInvalid
  cases hv : getField body ("price") with
  | none => rfl
  | some v =>
    cases v with
    | num n =>
      cases n with
      | finite q =>
        by_cases h : q ≤ 0
        · simp [jsIsNaN, jsLeZero, jsGtZero, h, not_lt.mpr h]
        · simp [jsIsNaN, jsLeZero, jsGtZero, h, not_le.mp h]
      | nan => rfl
      | posInf => rfl
      | negInf => rfl
    | str s => rfl
    | boolean b => rfl
    | null => rfl

theorem createItem_error_iff (body : JsObject) (data : List JsObject) (now : Int) :
    (∃ e, createItem body data now = Except.error e)
      ↔ (strFieldInvalid (getField body ("name")) = true ∨
         priceFieldInvalid (getField body ("price")) = true ∨
         strFieldInvalid (getField body ("description")) = true) := by
  constructor
  · rintro ⟨e, he⟩
    by_contra hno
    push_neg at hno
    simp only [Bool.not_eq_true] at hno
    rw [createItem] at he
    simp [hno.1, hno.2.1, hno.2.2] at he
  · intro h
    rcases h with h | h | h
    · exact ⟨{ status := 400, message := "Item name is required and must be a non-empty string." }, by simp [createItem, h]⟩
    · by_cases h1 : strFieldInvalid (getField body ("name")) = true
      · exact ⟨{ status := 400, message := "Item name is required and must be a non-empty string." }, by simp [createItem, h1]⟩
      · have h1f : strFieldInvalid (getField body ("name")) = false := by
          simpa using h1
        exact ⟨{ status := 400, message := "Item price is required and must be a positive number." }, by simp [createItem, h1f, h]⟩
    · by_cases h1 : strFieldInvalid (getField body ("name")) = true
      · exact ⟨{ status := 400, message := "Item name is required and must be a non-empty string." }, by simp [createItem, h1]⟩
      · have h1f : strFieldInvalid (getField body ("name")) = false := by
          simpa using h1
        by_cases h2 : priceFieldInvalid (getField body ("price")) = true
        · exact ⟨{ status := 400, message := "Item price is required and must be a positive number." }, by simp [createItem, h1f, h2]⟩
        · have h2f : priceFieldInvalid (getField body ("price")) = false := by
            simpa using h2
          exact ⟨{ status := 400, message := "Item category is required and must be a non-empty string." }, by simp [createItem, h1f, h2f, h]⟩

theorem bool_or3_not_and3 (a b c : Bool) :
    (a = true ∨ b = true ∨ c = true) ↔ ¬((!a) = true ∧ (!b) = true ∧ (!c) = true) := by
  cases a <;> cases b <;> cases c <;> simp

/-- C7 amended: create fails with a ValidationError exactly when name is
not a non-empty trimmed string, price is not a number that is non-NaN and
greater than zero (positive infinity is accepted, as finiteness is not
checked), or description is not a non-empty trimmed string; when
validation passes it returns the payload with its id field set server-side
to the creation timestamp, appends that record to the full set, persists
the full set, and the new id is unique among the persisted records
whenever the timestamp does not already occur as an id. -/
theorem c7_create_validation (body : JsObject) (data : List JsObject) (now : Int) :
    ((∃ e, createItem body data now = Except.error e)
        ↔ ¬(specNameOk body = true ∧ specPriceOk body = true ∧ specDescOk body = true)) ∧
    (specNameOk body = true → specPriceOk body = true → specDescOk body = true →
      createItem body data now
        = Except.ok (setField body ("id") (JsValue.num (JsNumber.finite (now : ℚ))),
            data ++ [setField body ("id") (JsValue.num (JsNumber.finite (now : ℚ)))]) ∧
      getField (setField body ("id") (JsValue.num (JsNumber.finite (now : ℚ)))) ("id")
        = some (JsValue.num (JsNumber.finite (now : ℚ)))) ∧
    ((∀ o ∈ data, getField o ("id") ≠ some (JsValue.num (JsNumber.finite (now : ℚ)))) →
      ∀ o ∈ data, getField o ("id")
        ≠ getField (setField body ("id") (JsValue.num (JsNumber.finite (now : ℚ)))) ("id")) := by
  refine ⟨?_, ?_, ?_⟩
  · rw [createItem_error_iff, specNameOk_eq, specPriceOk_eq, specDescOk_eq]
    exact bool_or3_not_and3 ..
  · intro h1 h2 h3
    rw [specNameOk_eq] at h1
    rw [specPriceOk_eq] at h2
    rw [specDescOk_eq] at h3
    simp only [Bool.not_eq_true'] at h1 h2 h3
    refine ⟨by simp [createItem, h1, h2, h3], getField_setField_self ..⟩
  · intro hfresh o ho
    rw [getField_setField_self]
    exact hfresh o ho

theorem c7_witness :
    (createItem [(("name"), JsValue.str ("N")),
        (("price"), JsValue.num (JsNumber.finite 3)),
        (("description"), JsValue.str ("D"))] [] 42
      = Except.ok (setField [(("name"), JsValue.str ("N")),
            (("price"), JsValue.num (JsNumber.finite 3)),
            (("description"), JsValue.str ("D"))] ("id")
            (JsValue.num (JsNumber.finite ((42 : Int) : ℚ))),
          [] ++ [setField [(("name"), JsValue.str ("N")),
            (("price"), JsValue.num (JsNumber.finite 3)),
            (("description"), JsValue.str ("D"))] ("id")
            (JsValue.num (JsNumber.finite ((42 : Int) : ℚ)))]) ∧
      getField (setField [(("name"), JsValue.str ("N")),
          (("price"), JsValue.num (JsNumber.finite 3)),
          (("description"), JsValue.str ("D"))] ("id")
          (JsValue.num (JsNumber.finite ((42 : Int) : ℚ)))) ("id")
        = some (JsValue.num (JsNumber.finite ((42 : Int) : ℚ)))) :=
  (c7_create_validation _ [] 42).2.1 (by decide) (by decide) (by decide)
